import Mathlib

/-!
Shallow embedding of the instance-lifecycle orchestrator in `src/index.js` of
the Discord-Dedi-Bot repository: the in-memory instance registry
(`instanceState`), the self-destruct timer engine, the firewall attach/verify
loop of the provisioning pipeline, the status and destruction reconciliation
pollers, the panel render serializer, and the self-protection filters.

Pure data operations are translated directly to Lean functions.  Provider and
Discord I/O is modelled by explicit outcome parameters (oracles), timestamps
by natural numbers of milliseconds, and timer-driven loops by explicit event
lists or fuel-bounded recursion whose fuel exceeds the wall-clock ceiling.
-/

namespace DediBot

/-- Creator info stored on a tracked instance (`creator: {id, username}`). -/
structure Creator where
  id : String
  username : String
  deriving DecidableEq

/-- The `selfDestructTimer` substructure created by the timer engine
(`{expiresAt, initialDuration, extendedCount, warningsSent}`). -/
structure SelfDestructTimer where
  expiresAt : Nat
  initialDuration : Nat
  extendedCount : Nat
  warningsSent : List String
  deriving DecidableEq

/-- One record of the in-memory registry `instanceState.instances`. -/
structure InstanceRecord where
  id : String
  creator : Creator
  createdAt : Nat
  status : String
  ip : Option String
  name : String
  lastUpdated : Nat
  selfDestructTimer : Option SelfDestructTimer := none
  deriving DecidableEq

/-- Provider-side instance data consumed by the orchestrator
(`instance{id, status, power_status, main_ip, snapshot_id, label}`).
`main_ip` is `none` when the field is null or undefined. -/
structure VultrInstance where
  id : String
  status : String
  power_status : String
  main_ip : Option String := none
  snapshot_id : Option String := none
  label : Option String := none
  deriving DecidableEq

/-- JavaScript truthiness of an optional string: null, undefined and the empty
string are falsy. -/
def strTruthy : Option String → Bool
  | none => false
  | some s => !(s == "")

/-- JavaScript `v || null` on a nullable string value. -/
def orNull (v : Option String) : Option String :=
  if strTruthy v then v else none

/-- JavaScript `v || d` on a nullable string with a string default. -/
def orDefault (v : Option String) (d : String) : String :=
  match v with
  | none => d
  | some s => if s == "" then d else s

/-- Replace the first element satisfying `p` (mirrors `findIndex` followed by
assignment at that index). -/
def updateFirst (p : α → Bool) (f : α → α) : List α → List α
  | [] => []
  | x :: xs => if p x then f x :: xs else x :: updateFirst p f xs

/-- Metadata argument of `instanceState.trackInstance` (defaults to `{}`);
`none` models an absent, null or empty value, matching the `||` defaulting
applied to each field in the source. -/
structure TrackMeta where
  ip : Option String := none
  name : Option String := none
  deriving DecidableEq

/-- Metadata argument of `instanceState.updateInstance`.  The outer `Option`
models presence of the key in the object spread `...metadata`, the inner value
is the (nullable) field value. -/
structure UpdateMeta where
  ip : Option (Option String) := none
  selfDestructTimer : Option (Option SelfDestructTimer) := none
  deriving DecidableEq

namespace instanceState

/-- `instanceState.trackInstance` (src/index.js:96): add or update an
instance.  `now` models `new Date()`.  The constructed `instanceData` carries
every field, so on an update the spread `{...existing, ...instanceData}`
keeps only `selfDestructTimer` (the one record field `instanceData` lacks)
from the existing record.  Returns the new registry and the returned
`instanceData`. -/
def trackInstance (instances : List InstanceRecord) (now : Nat)
    (instanceId userId username : String) (status : Option String)
    (metadata : TrackMeta) : List InstanceRecord × InstanceRecord :=
  let instanceData : InstanceRecord :=
    { id := instanceId
      creator := { id := userId, username := username }
      createdAt := now
      status := orDefault status "creating"
      ip := orNull metadata.ip
      name := orDefault metadata.name (username ++ "\x27s Server")
      lastUpdated := now
      selfDestructTimer := none }
  if (instances.find? (fun i => i.id == instanceId)).isSome then
    (updateFirst (fun i => i.id == instanceId)
      (fun existing => { instanceData with selfDestructTimer := existing.selfDestructTimer })
      instances,
     instanceData)
  else
    (instances ++ [instanceData], instanceData)

/-- `instanceState.updateInstance` (src/index.js:126): status update with the
metadata spread last over the existing record.  Returns the updated record
when the id is tracked, `null` otherwise. -/
def updateInstance (instances : List InstanceRecord) (now : Nat)
    (instanceId status : String) (metadata : UpdateMeta) :
    List InstanceRecord × Option InstanceRecord :=
  match instances.find? (fun i => i.id == instanceId) with
  | none => (instances, none)
  | some existing =>
    let merged : InstanceRecord :=
      { existing with
        status := status
        lastUpdated := now
        ip := metadata.ip.getD existing.ip
        selfDestructTimer := metadata.selfDestructTimer.getD existing.selfDestructTimer }
    (updateFirst (fun i => i.id == instanceId) (fun _ => merged) instances, some merged)

/-- `instanceState.getActiveInstances` (src/index.js:144). -/
def getActiveInstances (instances : List InstanceRecord) : List InstanceRecord :=
  instances.filter (fun i => !(i.status == "terminated") && !(i.status == "destroyed"))

/-- `instanceState.getInstance` (src/index.js:151). -/
def getInstance (instances : List InstanceRecord) (instanceId : String) :
    Option InstanceRecord :=
  instances.find? (fun i => i.id == instanceId)

/-- `instanceState.getUserInstances` (src/index.js:156). -/
def getUserInstances (instances : List InstanceRecord) (userId : String) :
    List InstanceRecord :=
  instances.filter (fun i => i.creator.id == userId)

end instanceState

/-! ### Provider interaction model -/

/-- Provider API calls issued by the orchestrator. -/
inductive ProviderCall
  | getInst (instanceId : String)
  | deleteInst (instanceId : String)
  | startInst (instanceId : String)
  | attachFirewall (instanceId firewallGroupId : String)
  | enableDdosProtection (instanceId : String)
  deriving DecidableEq

/-- Number of delete calls for `instanceId` in a list of provider calls. -/
def deleteCallCount (instanceId : String) : List ProviderCall → Nat
  | [] => 0
  | ProviderCall.deleteInst j :: rest =>
    (if j == instanceId then 1 else 0) + deleteCallCount instanceId rest
  | _ :: rest => deleteCallCount instanceId rest

/-- Outcome of a call to the `getInstance` wrapper, as observed by its callers:
it resolves with the instance, resolves with no instance (the wrapper returns
null for excluded instances, or the provider response carried no instance
data), or throws, carrying the HTTP status of the provider error. -/
inductive LookupOutcome
  | found (inst : VultrInstance)
  | absent
  | threw (httpStatus : Nat)
  deriving DecidableEq

/-- Outcome of a `deleteInstance` provider call: it resolves, or throws with
an HTTP status. -/
inductive DeleteOutcome
  | ok
  | failed (httpStatus : Nat)
  deriving DecidableEq

/-! ### Self-destruct timer engine -/

/-- Default of `SELF_DESTRUCT_INITIAL_MINUTES` (src/index.js:167). -/
def SELF_DESTRUCT_INITIAL_MINUTES : Nat := 180

/-- Default of `SELF_DESTRUCT_COIN_MINUTES` (src/index.js:168). -/
def SELF_DESTRUCT_COIN_MINUTES : Nat := 180

/-- Mirrors `initializeSelfDestructTimer` (src/index.js:173): create the
self-destruct timer for `instanceId`, unless the instance is untracked or a
timer already exists (in which case the registry is left untouched). -/
def initSelfDestructTimer (instances : List InstanceRecord) (instanceId : String)
    (now initialMinutes : Nat) : List InstanceRecord :=
  match instanceState.getInstance instances instanceId with
  | none => instances
  | some trackedInstance =>
    match trackedInstance.selfDestructTimer with
    | some _ => instances
    | none =>
      (instanceState.updateInstance instances now instanceId trackedInstance.status
        { selfDestructTimer := some (some
            { expiresAt := now + initialMinutes * 60 * 1000
              initialDuration := initialMinutes * 60 * 1000
              extendedCount := 0
              warningsSent := [] }) }).1

/-- The insert-coin timer extension shared by the `insert_coin_server`
select-menu handler (src/index.js:3723) and the `coin_` button handler
(src/index.js:3904): when the instance is tracked and has a timer, add
`coinMinutes` to `expiresAt` and bump `extendedCount`, returning the new
registry and `some newExpiresAt`; otherwise reply that there is no active
timer and leave the registry untouched (result `none`). -/
def insertCoin (instances : List InstanceRecord) (instanceId : String)
    (coinMinutes now : Nat) : List InstanceRecord × Option Nat :=
  match instanceState.getInstance instances instanceId with
  | none => (instances, none)
  | some trackedInstance =>
    match trackedInstance.selfDestructTimer with
    | none => (instances, none)
    | some timer =>
      let newExpiresAt := timer.expiresAt + coinMinutes * 60 * 1000
      let timer' : SelfDestructTimer :=
        { timer with
          expiresAt := newExpiresAt
          extendedCount := timer.extendedCount + 1 }
      ((instanceState.updateInstance instances now instanceId trackedInstance.status
          { selfDestructTimer := some (some timer') }).1,
       some newExpiresAt)

/-- One `checkTimers` sweep iteration (src/index.js:1706) for a single tracked
record at time `now`, given the provider outcomes it would observe: `lookup`
is the result of the existence re-check, `deleteRes` of the delete call (used
only when the record is expired and the lookup found the instance).  Returns
the record as the sweep leaves it in the registry, and whether a delete call
was issued to the provider.  A throw anywhere in the destroy block is caught
(`destroyError`) and leaves the record unchanged for the next sweep. -/
def checkTimerStep (rec : InstanceRecord) (now : Nat)
    (lookup : LookupOutcome) (deleteRes : DeleteOutcome) : InstanceRecord × Bool :=
  match rec.selfDestructTimer with
  | none => (rec, false)
  | some timer =>
    if timer.expiresAt ≤ now then
      match lookup with
      | .absent =>
        ({ rec with status := "destroyed", lastUpdated := now, selfDestructTimer := none },
         false)
      | .threw _ => (rec, false)
      | .found _ =>
        match deleteRes with
        | .ok =>
          ({ rec with status := "destroyed", lastUpdated := now, selfDestructTimer := none },
           true)
        | .failed _ => (rec, true)
    else
      let remainingMinutes := (timer.expiresAt - now) / 60000
      if remainingMinutes ≤ 10 && remainingMinutes > 5 && !(timer.warningsSent.contains "10min") then
        let timer10 : SelfDestructTimer :=
          { timer with warningsSent := timer.warningsSent ++ ["10min"] }
        ({ rec with lastUpdated := now, selfDestructTimer := some timer10 }, false)
      else if remainingMinutes ≤ 5 && !(timer.warningsSent.contains "5min") then
        let timer5 : SelfDestructTimer :=
          { timer with warningsSent := timer.warningsSent ++ ["5min"] }
        ({ rec with lastUpdated := now, selfDestructTimer := some timer5 }, false)
      else (rec, false)

/-! ### Self-protection at the provider-access layer -/

/-- Static self-protection configuration: `currentServerId` is the cached
`currentServerInstanceId` (auto-detected via the metadata service, already
falling back to `EXCLUDE_INSTANCE_ID` when unavailable), and the
`EXCLUDE_INSTANCE_ID` / `EXCLUDE_SNAPSHOT_ID` environment variables
(`none` when unset or empty). -/
structure SelfProtectConfig where
  currentServerId : Option String := none
  excludeInstanceId : Option String := none
  excludeSnapshotId : Option String := none
  deriving DecidableEq

/-- `isCurrentServer` (src/index.js:573). -/
def isCurrentServer (cfg : SelfProtectConfig) (instanceId : String) : Bool :=
  cfg.currentServerId == some instanceId || cfg.excludeInstanceId == some instanceId

/-- `getInstance` (src/index.js:595) after a successful provider fetch of
`fetched` for `instanceId`: self-protection returns null for the current
server and for instances created from the excluded snapshot. -/
def getInstanceFiltered (cfg : SelfProtectConfig) (instanceId : String)
    (fetched : VultrInstance) : Option VultrInstance :=
  if isCurrentServer cfg instanceId then none
  else
    match cfg.excludeSnapshotId with
    | none => some fetched
    | some snap => if fetched.snapshot_id == some snap then none else some fetched

/-- `listInstances` (src/index.js:626) applied to the instance list of the provider
list: filter out the current server, then (when `EXCLUDE_SNAPSHOT_ID` is set)
instances created from the excluded snapshot. -/
def listInstancesFiltered (cfg : SelfProtectConfig)
    (instances : List VultrInstance) : List VultrInstance :=
  let filteredInstances := instances.filter (fun i => !isCurrentServer cfg i.id)
  match cfg.excludeSnapshotId with
  | none => filteredInstances
  | some snap => filteredInstances.filter (fun i => !(i.snapshot_id == some snap))

/-! ### Status reconciliation poller -/

/-- Branch taken by one `pollStatus` tick of `startInstanceStatusPolling`. -/
inductive PollOutcome
  | ready
  | continueRestoring
  | continueCreating
  deriving DecidableEq

/-- The readiness test of `startInstanceStatusPolling` (src/index.js:1397):
status is active, power status is running, and `main_ip` is truthy and is
neither the placeholder `0.0.0.0` nor the empty string. -/
def isReadyInstance (inst : VultrInstance) : Bool :=
  inst.status == "active" && inst.power_status == "running" &&
    strTruthy inst.main_ip &&
    !(inst.main_ip == some "0.0.0.0") && !(inst.main_ip == some "")

/-- The branch taken by one `pollStatus` tick (src/index.js:1396-1462) on the
fetched instance: ready (stop polling, notify, init the timer),
active/stopped (restoring from snapshot: poll again in 45s), or still
creating (poll again in 45s). -/
def pollTick (inst : VultrInstance) : PollOutcome :=
  if isReadyInstance inst then .ready
  else if inst.status == "active" && inst.power_status == "stopped" then .continueRestoring
  else .continueCreating

/-- Whether a `pollTick` outcome schedules another poll
(`setTimeout(pollStatus, 45000)`). -/
def pollOutcomeContinues : PollOutcome → Bool
  | .ready => false
  | .continueRestoring => true
  | .continueCreating => true

/-- Provider calls issued by one `pollStatus` tick: the `getInstance` fetch,
and none from any branch (in particular the restoring branch never calls
`startInstance`). -/
def pollTickCalls (instanceId : String) (inst : VultrInstance) : List ProviderCall :=
  ProviderCall.getInst instanceId ::
    (match pollTick inst with
     | .ready => []
     | .continueRestoring => []
     | .continueCreating => [])

/-! ### Provisioning pipeline: firewall attach/verify loop -/

/-- Outcome of one firewall attach attempt (src/index.js:1100-1136): the
attach call threw, or it succeeded and the 3s-later re-fetch either reported
exactly the requested firewall group id or did not. -/
inductive AttemptOutcome
  | attachThrew
  | verifyMismatch
  | verified
  deriving DecidableEq

/-- The retry loop `while (!firewallAttached && retryCount < maxRetries)` of
`createInstanceFromSnapshot`: `oracle i` is the outcome of attempt number `i`;
the first `Nat` argument is the number of attempts still allowed, the second
the index of the next attempt.  Returns whether the firewall was verified
attached, together with the provider calls issued. -/
def firewallLoop (oracle : Nat → AttemptOutcome) (instanceId firewallGroupId : String) :
    Nat → Nat → Bool × List ProviderCall
  | 0, _ => (false, [])
  | remaining + 1, i =>
    match oracle i with
    | .attachThrew =>
      let next := firewallLoop oracle instanceId firewallGroupId remaining (i + 1)
      (next.1, ProviderCall.attachFirewall instanceId firewallGroupId :: next.2)
    | .verifyMismatch =>
      let next := firewallLoop oracle instanceId firewallGroupId remaining (i + 1)
      (next.1, ProviderCall.attachFirewall instanceId firewallGroupId ::
        ProviderCall.getInst instanceId :: next.2)
    | .verified =>
      (true, [ProviderCall.attachFirewall instanceId firewallGroupId,
              ProviderCall.getInst instanceId])

/-- `maxRetries` of the firewall attach loop (src/index.js:1098). -/
def FIREWALL_MAX_RETRIES : Nat := 10

/-- Error result of the provisioning pipeline security phase: the
`SECURITY FAILURE` error thrown at src/index.js:1150. -/
inductive CreateErr
  | securityAttachmentFailed
  deriving DecidableEq

/-- The security phase of `createInstanceFromSnapshot` after a successful
create of `created` (src/index.js:1096-1176): run the attach/verify loop (10
attempts); if the firewall never verifies, issue one best-effort delete for
the just-created instance (`deleteRes` is its outcome — a failure is only
logged, never retried) and throw `SecurityAttachmentFailed`; on success
enable DDoS protection (non-fatal) and return the instance handle. -/
def securityPhase (oracle : Nat → AttemptOutcome) (instanceId firewallGroupId : String)
    (created : VultrInstance) (deleteRes : DeleteOutcome) :
    Except CreateErr VultrInstance × List ProviderCall :=
  let run := firewallLoop oracle instanceId firewallGroupId FIREWALL_MAX_RETRIES 0
  if run.1 then
    (Except.ok created,
     run.2 ++ [ProviderCall.enableDdosProtection instanceId, ProviderCall.getInst instanceId])
  else
    match deleteRes with
    | _ => (Except.error CreateErr.securityAttachmentFailed,
            run.2 ++ [ProviderCall.deleteInst instanceId])

/-! ### Destruction reconciliation poller -/

/-- Result of `startInstanceDestructionPolling`: destruction confirmed after
the given number of ticks (the only branches that reach it first mark the
record destroyed via `updateInstance(id, destroyed, {selfDestructTimer:
null})` and surface no error to the caller), or the 15-minute ceiling was
hit. -/
inductive DestructionResult
  | confirmed (ticksUsed : Nat)
  | timedOut
  deriving DecidableEq

/-- Delay before the first destruction-poll tick (src/index.js:1658). -/
def DESTRUCTION_FIRST_POLL_DELAY_MS : Nat := 2000

/-- Re-poll interval of the destruction poller (src/index.js:1644). -/
def DESTRUCTION_POLL_INTERVAL_MS : Nat := 10000

/-- Wall-clock ceiling of the destruction poller (src/index.js:1599). -/
def DESTRUCTION_MAX_WAIT_MS : Nat := 15 * 60 * 1000

/-- The recursive `pollStatus` of `startInstanceDestructionPolling`
(src/index.js:1602): tick `i` runs at elapsed time `2000 + 10000 * i` ms;
`oracle i` gives the provider outcomes at tick `i` (the existence check, and
the re-issued delete when the instance is still present).  A lookup that
resolves with no instance, or throws 404 or 403, is proof of absence: the
record is marked destroyed and the result is confirmed.  Any delete failure
is swallowed (only non-400 failures are even logged) and polling continues;
other lookup errors are logged and polling continues.  `fuel` bounds the
recursion; the ceiling makes at most 91 ticks run. -/
def destructionLoop (oracle : Nat → LookupOutcome × DeleteOutcome) (instanceId : String) :
    Nat → Nat → DestructionResult × List ProviderCall
  | 0, _ => (DestructionResult.timedOut, [])
  | fuel + 1, i =>
    if DESTRUCTION_MAX_WAIT_MS < DESTRUCTION_FIRST_POLL_DELAY_MS + DESTRUCTION_POLL_INTERVAL_MS * i then
      (DestructionResult.timedOut, [])
    else
      match (oracle i).1 with
      | .absent => (DestructionResult.confirmed (i + 1), [ProviderCall.getInst instanceId])
      | .threw s =>
        if s == 404 || s == 403 then
          (DestructionResult.confirmed (i + 1), [ProviderCall.getInst instanceId])
        else
          let next := destructionLoop oracle instanceId fuel (i + 1)
          (next.1, ProviderCall.getInst instanceId :: next.2)
      | .found _ =>
        let next := destructionLoop oracle instanceId fuel (i + 1)
        (next.1, ProviderCall.getInst instanceId :: ProviderCall.deleteInst instanceId :: next.2)

/-! ### Render serializer (panel update guard) -/

/-- The serializer flags `panelUpdateInProgress` / `pendingPanelUpdate`
(src/index.js:491-492). -/
structure PanelFlags where
  inProgress : Bool
  pending : Bool
  deriving DecidableEq

/-- Events of the panel render serializer, from `updatePanel`
(src/index.js:2124-2473).  `requestUpdate` is a call with no interaction (a
periodic refresh or a scheduled `setTimeout(() => updatePanel(), ...)`);
`requestFromInteraction` is a call carrying an interaction — when a render is
in progress it does not touch the pending flag but waits 100ms and re-checks,
which is delivered later as the separate `interactionRetry` event;
`renderComplete` is the `finally` block of the running render (it clears the
lock, leaves the pending flag as is, and schedules a `requestUpdate` 100ms
later exactly when the pending flag is set). -/
inductive PanelEvent
  | requestUpdate
  | requestFromInteraction
  | interactionRetry
  | renderComplete
  deriving DecidableEq

/-- One step of the serializer: returns the new flags and how many renders
this event starts (a started render sets the lock and clears the pending
flag, src/index.js:2161-2162). -/
def panelStep (s : PanelFlags) : PanelEvent → PanelFlags × Nat
  | .requestUpdate =>
    if s.inProgress then ({ s with pending := true }, 0)
    else ({ inProgress := true, pending := false }, 1)
  | .requestFromInteraction =>
    if s.inProgress then (s, 0)
    else ({ inProgress := true, pending := false }, 1)
  | .interactionRetry =>
    if s.inProgress then (s, 0)
    else ({ inProgress := true, pending := false }, 1)
  | .renderComplete => ({ s with inProgress := false }, 0)

/-- Run a sequence of serializer events, counting the renders started. -/
def panelRun (s : PanelFlags) : List PanelEvent → PanelFlags × Nat
  | [] => (s, 0)
  | e :: es =>
    let step := panelStep s e
    let rest := panelRun step.1 es
    (rest.1, step.2 + rest.2)

/-! ### Helper lemmas -/

theorem find?_updateFirst {α : Type} (p : α → Bool) (f : α → α) (l : List α) (x : α)
    (hfind : l.find? p = some x) (hf : p (f x) = true) :
    (updateFirst p f l).find? p = some (f x) := by
  induction l with
  | nil => simp at hfind
  | cons a t ih =>
    by_cases hpa : p a = true
    · rw [List.find?_cons_of_pos _ hpa] at hfind
      injection hfind with hax
      subst hax
      simp [updateFirst, hpa, List.find?_cons_of_pos _ hf]
    · have hpa' : p a = false := by
        cases h : p a
        · rfl
        · exact absurd h hpa
      rw [List.find?_cons_of_neg _ (by simp [hpa'])] at hfind
      rw [updateFirst, if_neg (by simp [hpa'])]
      rw [List.find?_cons_of_neg _ (by simp [hpa'])]
      exact ih hfind

theorem deleteCallCount_append (instanceId : String) (l₁ l₂ : List ProviderCall) :
    deleteCallCount instanceId (l₁ ++ l₂) =
      deleteCallCount instanceId l₁ + deleteCallCount instanceId l₂ := by
  induction l₁ with
  | nil => simp [deleteCallCount]
  | cons c t ih =>
    cases c <;> simp [deleteCallCount, ih, Nat.add_assoc]

theorem firewallLoop_all_fail (oracle : Nat → AttemptOutcome)
    (instanceId firewallGroupId : String) :
    ∀ n i, (∀ j, j < n → oracle (i + j) ≠ AttemptOutcome.verified) →
    (firewallLoop oracle instanceId firewallGroupId n i).1 = false ∧
    deleteCallCount instanceId (firewallLoop oracle instanceId firewallGroupId n i).2 = 0 := by
  intro n
  induction n with
  | zero => intro i _; simp [firewallLoop, deleteCallCount]
  | succ m ih =>
    intro i h
    have h0 : oracle i ≠ AttemptOutcome.verified := by
      have := h 0 (Nat.succ_pos m)
      simpa using this
    have hrest : ∀ j, j < m → oracle (i + 1 + j) ≠ AttemptOutcome.verified := by
      intro j hj
      have := h (j + 1) (Nat.succ_lt_succ hj)
      rw [show i + (j + 1) = i + 1 + j by omega] at this
      exact this
    obtain ⟨ih1, ih2⟩ := ih (i + 1) hrest
    cases hc : oracle i with
    | attachThrew => simp [firewallLoop, hc, deleteCallCount, ih1, ih2]
    | verifyMismatch => simp [firewallLoop, hc, deleteCallCount, ih1, ih2]
    | verified => exact absurd hc h0

/-! ### Claim theorems -/

/-- Claim C1: for every provisioning run in which the security-attachment
verification loop fails all 10 attempts, the pipeline issues exactly one
delete call to the provider for the just-created instance id (best-effort:
the result is the same whatever the delete outcome, a failure being only
logged, never retried) and the whole operation fails with
`SecurityAttachmentFailed`; it never returns a handle to an unverified
instance. -/
theorem spec_C1_security_teardown (oracle : Nat → AttemptOutcome)
    (instanceId firewallGroupId : String) (created : VultrInstance)
    (deleteRes : DeleteOutcome)
    (hfail : ∀ i, i < 10 → oracle i ≠ AttemptOutcome.verified) :
    (securityPhase oracle instanceId firewallGroupId created deleteRes).1 =
      Except.error CreateErr.securityAttachmentFailed ∧
    deleteCallCount instanceId
      (securityPhase oracle instanceId firewallGroupId created deleteRes).2 = 1 := by
  obtain ⟨h1, h2⟩ :=
    firewallLoop_all_fail oracle instanceId firewallGroupId 10 0 (by simpa using hfail)
  cases deleteRes <;>
    constructor <;>
      simp [securityPhase, FIREWALL_MAX_RETRIES, h1, h2, deleteCallCount_append,
        deleteCallCount]

/-- Witness for C1: a concrete run whose ten attach attempts all throw. -/
theorem spec_C1_security_teardown_witness :
    (securityPhase (fun _ => AttemptOutcome.attachThrew) "vm-1" "fw-1"
        { id := "vm-1", status := "active", power_status := "running" }
        DeleteOutcome.ok).1 = Except.error CreateErr.securityAttachmentFailed ∧
    deleteCallCount "vm-1"
      (securityPhase (fun _ => AttemptOutcome.attachThrew) "vm-1" "fw-1"
        { id := "vm-1", status := "active", power_status := "running" }
        DeleteOutcome.ok).2 = 1 :=
  spec_C1_security_teardown _ _ _ _ _ (fun _ _ h => AttemptOutcome.noConfusion h)

/-- Claim C2: in the expiry sweep of the timer engine, an expired record is marked
destroyed (and its timer cleared) exactly when the existence re-check reports
the instance gone or the delete call is confirmed by the provider; when the
destroy attempt fails, the record is left unchanged, keeping its timer, so
the next sweep retries it. -/
theorem spec_C2_expiry_gating (rec : InstanceRecord) (timer : SelfDestructTimer)
    (now : Nat) (lookup : LookupOutcome) (deleteRes : DeleteOutcome)
    (ht : rec.selfDestructTimer = some timer) (hexp : timer.expiresAt ≤ now) :
    (((checkTimerStep rec now lookup deleteRes).1.status = "destroyed" ∧
      (checkTimerStep rec now lookup deleteRes).1.selfDestructTimer = none) ↔
      (lookup = LookupOutcome.absent ∨
        ((∃ i, lookup = LookupOutcome.found i) ∧ deleteRes = DeleteOutcome.ok))) ∧
    (∀ i s, lookup = LookupOutcome.found i → deleteRes = DeleteOutcome.failed s →
      (checkTimerStep rec now lookup deleteRes).1 = rec ∧
      (checkTimerStep rec now lookup deleteRes).1.selfDestructTimer = some timer) := by
  cases lookup <;> cases deleteRes <;>
    simp [checkTimerStep, ht, hexp]

/-- Witness for C2: an expired concrete record whose delete attempt throws is
left unchanged. -/
theorem spec_C2_expiry_gating_witness :
    (checkTimerStep
        { id := "i1", creator := { id := "u1", username := "alice" }, createdAt := 100,
          status := "running", ip := some "1.2.3.4", name := "Alpha", lastUpdated := 100,
          selfDestructTimer := some
            { expiresAt := 50, initialDuration := 1000, extendedCount := 0,
              warningsSent := [] } }
        60
        (LookupOutcome.found { id := "i1", status := "active", power_status := "running" })
        (DeleteOutcome.failed 500)).1 =
      { id := "i1", creator := { id := "u1", username := "alice" }, createdAt := 100,
        status := "running", ip := some "1.2.3.4", name := "Alpha", lastUpdated := 100,
        selfDestructTimer := some
          { expiresAt := 50, initialDuration := 1000, extendedCount := 0,
            warningsSent := [] } } :=
  ((spec_C2_expiry_gating _ _ 60 _ _ rfl (by decide)).2 _ 500 rfl rfl).1

theorem panelRun_append (s : PanelFlags) (l₁ l₂ : List PanelEvent) :
    panelRun s (l₁ ++ l₂) =
      ((panelRun (panelRun s l₁).1 l₂).1,
       (panelRun s l₁).2 + (panelRun (panelRun s l₁).1 l₂).2) := by
  induction l₁ generalizing s with
  | nil => simp [panelRun]
  | cons e t ih => simp [panelRun, ih, Nat.add_assoc]

theorem panelRun_busy_requests (p : Bool) :
    ∀ N, panelRun ⟨true, p⟩ (List.replicate N PanelEvent.requestUpdate) =
      (⟨true, p || decide (0 < N)⟩, 0) := by
  intro N
  induction N generalizing p with
  | zero => simp [panelRun]
  | succ m ih =>
    rw [List.replicate_succ]
    simp [panelRun, panelStep, ih]

/-- Counterexample to claim C3 as stated: a single interaction-initiated
render request (`updatePanel(interaction)`) arriving while a render is in
progress, with the render still in progress at the 100ms re-check of the request,
does not set the pending flag; after the in-progress render completes, zero
additional renders execute and none is scheduled (the final pending flag is
false) — not exactly one. -/
theorem spec_C3_serializer_counterexample :
    panelRun ⟨true, false⟩
      [PanelEvent.requestFromInteraction, PanelEvent.interactionRetry,
       PanelEvent.renderComplete] = (⟨false, false⟩, 0) := by
  decide

/-- Claim C3 amended: for every N ≥ 1, N render requests WITHOUT an
interaction (periodic refreshes and scheduled `updatePanel()` calls)
arriving while a render is in progress coalesce into the single pending flag
and start no render themselves; after the in-progress render completes, the
scheduled follow-up request starts exactly one additional render (which
clears the pending flag, so its own completion schedules nothing more).
Interaction-carrying requests arriving during a render leave the flags
untouched (they are retried once and skipped if the render is still in
progress).  A render only ever starts when the in-progress lock is free, and
taking the lock is atomic with the start, so no two renders run
concurrently. -/
theorem spec_C3_serializer_amended :
    (∀ N, 1 ≤ N →
      panelRun ⟨true, false⟩ (List.replicate N PanelEvent.requestUpdate) =
        (⟨true, true⟩, 0)) ∧
    (∀ N, 1 ≤ N →
      panelRun ⟨true, false⟩ (List.replicate N PanelEvent.requestUpdate ++
        [PanelEvent.renderComplete, PanelEvent.requestUpdate, PanelEvent.renderComplete]) =
        (⟨false, false⟩, 1)) ∧
    (∀ s : PanelFlags, s.inProgress = true →
      panelStep s PanelEvent.requestFromInteraction = (s, 0) ∧
      panelStep s PanelEvent.interactionRetry = (s, 0)) ∧
    (∀ (s : PanelFlags) (e : PanelEvent), (panelStep s e).2 = 1 →
      s.inProgress = false ∧ (panelStep s e).1.inProgress = true) := by
  have hbusy : ∀ N, 1 ≤ N →
      panelRun ⟨true, false⟩ (List.replicate N PanelEvent.requestUpdate) =
        (⟨true, true⟩, 0) := by
    intro N hN
    rw [panelRun_busy_requests false N]
    simp [Nat.lt_of_lt_of_le Nat.zero_lt_one hN]
  refine ⟨hbusy, ?_, ?_, ?_⟩
  · intro N hN
    rw [panelRun_append, hbusy N hN]
    decide
  · intro s hs
    cases s
    simp_all [panelStep]
  · intro s e
    cases s with
    | mk ip pd => cases e <;> cases ip <;> cases pd <;> simp [panelStep]

/-- Witness for the amended C3 at N = 2. -/
theorem spec_C3_serializer_amended_witness :
    panelRun ⟨true, false⟩ (List.replicate 2 PanelEvent.requestUpdate ++
      [PanelEvent.renderComplete, PanelEvent.requestUpdate, PanelEvent.renderComplete]) =
      (⟨false, false⟩, 1) :=
  spec_C3_serializer_amended.2.1 2 (by decide)

/-- A concrete pre-existing registry record used to exercise the upsert. -/
def c4Existing : InstanceRecord :=
  { id := "i1", creator := { id := "u1", username := "alice" }, createdAt := 100,
    status := "running", ip := some "1.2.3.4", name := "Alpha", lastUpdated := 100,
    selfDestructTimer := none }

/-- Counterexample to claim C4 as stated: upserting id `i1` with empty
metadata onto an existing record whose ip is `1.2.3.4` and whose createdAt is
100 does NOT preserve those fields — the ip of the stored record becomes null and
its createdAt is reset to the call time 200. -/
theorem spec_C4_upsert_counterexample :
    c4Existing.ip = some "1.2.3.4" ∧ c4Existing.createdAt = 100 ∧
    (instanceState.getInstance
        (instanceState.trackInstance [c4Existing] 200 "i1" "u1" "alice"
          (some "running") {}).1 "i1").map (fun r => (r.ip, r.createdAt)) =
      some (none, 200) := by
  refine ⟨rfl, rfl, ?_⟩
  decide

/-- Claim C4 amended: for every existing registry record, upsert
(`trackInstance`) rebuilds the stored record entirely from its arguments —
creator, status (defaulting to creating), ip (null whenever metadata omits
it), name (defaulting to the default server name derived from the username) are overwritten and both
timestamps, createdAt included, are reset to the call time — and the only
field of the existing record it preserves is `selfDestructTimer`. -/
theorem spec_C4_upsert_amended (instances : List InstanceRecord) (now : Nat)
    (instanceId userId username : String) (status : Option String)
    (metadata : TrackMeta) (existing : InstanceRecord)
    (hfind : instanceState.getInstance instances instanceId = some existing) :
    instanceState.getInstance
        (instanceState.trackInstance instances now instanceId userId username
          status metadata).1 instanceId =
      some { id := instanceId
             creator := { id := userId, username := username }
             createdAt := now
             status := orDefault status "creating"
             ip := orNull metadata.ip
             name := orDefault metadata.name (username ++ "\x27s Server")
             lastUpdated := now
             selfDestructTimer := existing.selfDestructTimer } := by
  unfold instanceState.getInstance at hfind ⊢
  unfold instanceState.trackInstance
  rw [hfind]
  simp only [Option.isSome_some, if_true]
  exact find?_updateFirst _ _ instances existing hfind (by simp)

/-- Witness for the amended C4 at a concrete registry. -/
theorem spec_C4_upsert_amended_witness :
    instanceState.getInstance
        (instanceState.trackInstance [c4Existing] 200 "i1" "u2" "bob"
          (some "running") {}).1 "i1" =
      some { id := "i1"
             creator := { id := "u2", username := "bob" }
             createdAt := 200
             status := orDefault (some "running") "creating"
             ip := orNull ({} : TrackMeta).ip
             name := orDefault ({} : TrackMeta).name ("bob" ++ "\x27s Server")
             lastUpdated := 200
             selfDestructTimer := c4Existing.selfDestructTimer } :=
  spec_C4_upsert_amended [c4Existing] 200 "i1" "u2" "bob" (some "running") {}
    c4Existing rfl

theorem isReadyInstance_iff (inst : VultrInstance) :
    isReadyInstance inst = true ↔
      (inst.status = "active" ∧ inst.power_status = "running" ∧
        ∃ ip, inst.main_ip = some ip ∧ ip ≠ "" ∧ ip ≠ "0.0.0.0") := by
  cases hm : inst.main_ip with
  | none => simp [isReadyInstance, strTruthy, hm]
  | some ip =>
    simp [isReadyInstance, strTruthy, hm]
    tauto

/-- Claim C5: the status reconciliation poller reports an instance ready if
and only if, in one provider response, the lifecycle status is active, the
power status is running, and a non-placeholder IP is assigned (the empty
string and 0.0.0.0 do not count); in every other combination the tick
reschedules the poll. -/
theorem spec_C5_ready_conditions (inst : VultrInstance) :
    (pollTick inst = PollOutcome.ready ↔
      (inst.status = "active" ∧ inst.power_status = "running" ∧
        ∃ ip, inst.main_ip = some ip ∧ ip ≠ "" ∧ ip ≠ "0.0.0.0")) ∧
    (pollTick inst ≠ PollOutcome.ready →
      pollOutcomeContinues (pollTick inst) = true) := by
  constructor
  · rw [← isReadyInstance_iff]
    unfold pollTick
    split_ifs with h1 h2 <;> simp [h1]
  · intro h
    cases hpt : pollTick inst <;> simp_all [pollOutcomeContinues]

/-- Witness for C5: a concrete active//running instance with a real address
is reported ready. -/
theorem spec_C5_ready_conditions_witness :
    pollTick { id := "x", status := "active", power_status := "running",
               main_ip := some "1.2.3.4" } = PollOutcome.ready :=
  (spec_C5_ready_conditions _).1.mpr
    ⟨rfl, rfl, "1.2.3.4", rfl, by decide, by decide⟩

/-- Claim C6: on every polling tick where the provider reports the instance
lifecycle-active with power status stopped, the poller treats it as the
normal restoring sub-state, keeps polling, and issues no start command to
the provider. -/
theorem spec_C6_restoring_no_start (instanceId : String) (inst : VultrInstance)
    (hs : inst.status = "active") (hp : inst.power_status = "stopped") :
    pollTick inst = PollOutcome.continueRestoring ∧
    pollOutcomeContinues (pollTick inst) = true ∧
    ProviderCall.startInst instanceId ∉ pollTickCalls instanceId inst := by
  have hnr : isReadyInstance inst = false := by
    have : ¬ (isReadyInstance inst = true) := by
      rw [isReadyInstance_iff]
      rintro ⟨-, hrun, -⟩
      rw [hp] at hrun
      exact absurd hrun (by decide)
    cases h : isReadyInstance inst
    · rfl
    · exact absurd h this
  have h1 : pollTick inst = PollOutcome.continueRestoring := by
    simp [pollTick, hnr, hs, hp]
  refine ⟨h1, by simp [h1, pollOutcomeContinues], ?_⟩
  simp [pollTickCalls, h1]

/-- Witness for C6 at a concrete active//stopped instance. -/
theorem spec_C6_restoring_no_start_witness :
    pollTick { id := "y", status := "active", power_status := "stopped" } =
      PollOutcome.continueRestoring ∧
    ProviderCall.startInst "y" ∉
      pollTickCalls "y" { id := "y", status := "active", power_status := "stopped" } :=
  ⟨(spec_C6_restoring_no_start "y" _ rfl rfl).1,
   (spec_C6_restoring_no_start "y" _ rfl rfl).2.2⟩

/-- Claim C7: timer initialization is idempotent — calling it for an instance
that already has a `selfDestructTimer` is a no-op that leaves the whole
registry (hence expiresAt, extendedCount and warningsSent) unchanged, so
re-entering running never resets an existing timer. -/
theorem spec_C7_timer_idempotent (instances : List InstanceRecord)
    (instanceId : String) (now initialMinutes : Nat)
    (rec : InstanceRecord) (timer : SelfDestructTimer)
    (hfind : instanceState.getInstance instances instanceId = some rec)
    (ht : rec.selfDestructTimer = some timer) :
    initSelfDestructTimer instances instanceId now initialMinutes = instances := by
  simp [initSelfDestructTimer, hfind, ht]

/-- Witness for C7: a second initialization at a later time leaves a concrete
registry untouched. -/
theorem spec_C7_timer_idempotent_witness :
    initSelfDestructTimer
      [{ id := "i1", creator := { id := "u1", username := "alice" }, createdAt := 100,
         status := "running", ip := some "1.2.3.4", name := "Alpha", lastUpdated := 100,
         selfDestructTimer := some
           { expiresAt := 500, initialDuration := 400, extendedCount := 2,
             warningsSent := ["10min"] } }] "i1" 999 180 =
      [{ id := "i1", creator := { id := "u1", username := "alice" }, createdAt := 100,
         status := "running", ip := some "1.2.3.4", name := "Alpha", lastUpdated := 100,
         selfDestructTimer := some
           { expiresAt := 500, initialDuration := 400, extendedCount := 2,
             warningsSent := ["10min"] } }] :=
  spec_C7_timer_idempotent _ "i1" 999 180 _
    { expiresAt := 500, initialDuration := 400, extendedCount := 2,
      warningsSent := ["10min"] } rfl rfl

theorem getInstance_updateInstance_found (instances : List InstanceRecord) (now : Nat)
    (instanceId status : String) (metadata : UpdateMeta) (existing : InstanceRecord)
    (hfind : instanceState.getInstance instances instanceId = some existing) :
    (instanceState.updateInstance instances now instanceId status metadata).2 =
      some { existing with
             status := status
             lastUpdated := now
             ip := metadata.ip.getD existing.ip
             selfDestructTimer := metadata.selfDestructTimer.getD existing.selfDestructTimer } ∧
    instanceState.getInstance
        (instanceState.updateInstance instances now instanceId status metadata).1 instanceId =
      some { existing with
             status := status
             lastUpdated := now
             ip := metadata.ip.getD existing.ip
             selfDestructTimer := metadata.selfDestructTimer.getD existing.selfDestructTimer } := by
  unfold instanceState.getInstance at hfind ⊢
  have hid : (existing.id == instanceId) = true := by
    have := List.find?_some hfind
    simpa using this
  constructor
  · simp [instanceState.updateInstance, hfind]
  · unfold instanceState.updateInstance
    rw [hfind]
    exact find?_updateFirst _ _ instances existing hfind (by simpa using hid)

/-- Claim C8: for every record with an active timer, the insert-coin extension
adds the fixed increment to expiresAt (strictly increasing it whenever the
configured extension is positive), increments extendedCount by one and leaves
warningsSent (and every other field except lastUpdated) unchanged; for every
record with no timer (or an untracked id) it reports that there is no active
timer and mutates nothing. -/
theorem spec_C8_extend (instances : List InstanceRecord) (instanceId : String)
    (coinMinutes now : Nat) :
    (∀ rec timer, instanceState.getInstance instances instanceId = some rec →
      rec.selfDestructTimer = some timer →
      (insertCoin instances instanceId coinMinutes now).2 =
        some (timer.expiresAt + coinMinutes * 60 * 1000) ∧
      (0 < coinMinutes → ∀ v, (insertCoin instances instanceId coinMinutes now).2 = some v →
        timer.expiresAt < v) ∧
      instanceState.getInstance (insertCoin instances instanceId coinMinutes now).1 instanceId =
        some { rec with
               lastUpdated := now
               selfDestructTimer := some { timer with
                 expiresAt := timer.expiresAt + coinMinutes * 60 * 1000
                 extendedCount := timer.extendedCount + 1 } }) ∧
    (∀ rec, instanceState.getInstance instances instanceId = some rec →
      rec.selfDestructTimer = none →
      insertCoin instances instanceId coinMinutes now = (instances, none)) ∧
    (instanceState.getInstance instances instanceId = none →
      insertCoin instances instanceId coinMinutes now = (instances, none)) := by
  refine ⟨?_, ?_, ?_⟩
  · intro rec timer hfind ht
    have hupd := getInstance_updateInstance_found instances now instanceId rec.status
      { selfDestructTimer := some (some { timer with
          expiresAt := timer.expiresAt + coinMinutes * 60 * 1000
          extendedCount := timer.extendedCount + 1 }) } rec hfind
    refine ⟨by simp [insertCoin, hfind, ht], ?_, ?_⟩
    · intro hpos v hv
      rw [show (insertCoin instances instanceId coinMinutes now).2 =
        some (timer.expiresAt + coinMinutes * 60 * 1000) from by simp [insertCoin, hfind, ht]]
        at hv
      injection hv with hv
      omega
    · rw [show (insertCoin instances instanceId coinMinutes now).1 =
        (instanceState.updateInstance instances now instanceId rec.status
          { selfDestructTimer := some (some { timer with
              expiresAt := timer.expiresAt + coinMinutes * 60 * 1000
              extendedCount := timer.extendedCount + 1 }) }).1 from by
          simp [insertCoin, hfind, ht]]
      simpa using hupd.2
  · intro rec hfind ht
    simp [insertCoin, hfind, ht]
  · intro hfind
    simp [insertCoin, hfind]

/-- Witness for C8: a concrete extension by the default 180 minutes. -/
theorem spec_C8_extend_witness :
    (insertCoin
        [{ id := "i1", creator := { id := "u1", username := "alice" }, createdAt := 100,
           status := "running", ip := some "1.2.3.4", name := "Alpha", lastUpdated := 100,
           selfDestructTimer := some
             { expiresAt := 5000, initialDuration := 1000, extendedCount := 0,
               warningsSent := ["10min"] } }] "i1" SELF_DESTRUCT_COIN_MINUTES 60).2 =
      some (5000 + SELF_DESTRUCT_COIN_MINUTES * 60 * 1000) :=
  ((spec_C8_extend
      [{ id := "i1", creator := { id := "u1", username := "alice" }, createdAt := 100,
         status := "running", ip := some "1.2.3.4", name := "Alpha", lastUpdated := 100,
         selfDestructTimer := some
           { expiresAt := 5000, initialDuration := 1000, extendedCount := 0,
             warningsSent := ["10min"] } }] "i1" SELF_DESTRUCT_COIN_MINUTES 60).1
    { id := "i1", creator := { id := "u1", username := "alice" }, createdAt := 100,
      status := "running", ip := some "1.2.3.4", name := "Alpha", lastUpdated := 100,
      selfDestructTimer := some
        { expiresAt := 5000, initialDuration := 1000, extendedCount := 0,
          warningsSent := ["10min"] } }
    { expiresAt := 5000, initialDuration := 1000, extendedCount := 0,
      warningsSent := ["10min"] } rfl rfl).1

/-- The provider-reported instance used by the Scenario D oracle. -/
def c9Inst : VultrInstance := { id := "vm-1", status := "active", power_status := "running" }

/-- Scenario D oracle: the delete re-issued on ticks 0 and 1 is rejected with
400 while the instance is still reported present; on tick 2 the existence
check throws 404. -/
def c9Oracle : Nat → LookupOutcome × DeleteOutcome := fun i =>
  if i < 2 then (LookupOutcome.found c9Inst, DeleteOutcome.failed 400)
  else (LookupOutcome.threw 404, DeleteOutcome.ok)

/-- Claim C9: the destruction poller loops every 10 seconds up to a 15-minute
ceiling; a 404 or 403 (or an instance-free response) on the existence check
is proof of absence, confirming destruction (the record being marked
destroyed with its timer cleared, no error surfaced — the only erroring
result is the ceiling timeout); a 400 on the re-issued delete is swallowed
and the loop simply continues; in particular, 400 on two ticks then 404 on
the third yields confirmation after three ticks. -/
theorem spec_C9_destruction_poller :
    (DESTRUCTION_FIRST_POLL_DELAY_MS = 2000 ∧ DESTRUCTION_POLL_INTERVAL_MS = 10000 ∧
      DESTRUCTION_MAX_WAIT_MS = 15 * 60 * 1000) ∧
    destructionLoop c9Oracle "vm-1" 91 0 =
      (DestructionResult.confirmed 3,
       [ProviderCall.getInst "vm-1", ProviderCall.deleteInst "vm-1",
        ProviderCall.getInst "vm-1", ProviderCall.deleteInst "vm-1",
        ProviderCall.getInst "vm-1"]) ∧
    (∀ (oracle : Nat → LookupOutcome × DeleteOutcome) (instanceId : String)
        (fuel i : Nat) (dres : DeleteOutcome),
      DESTRUCTION_FIRST_POLL_DELAY_MS + DESTRUCTION_POLL_INTERVAL_MS * i ≤
        DESTRUCTION_MAX_WAIT_MS →
      (oracle i = (LookupOutcome.threw 404, dres) ∨
       oracle i = (LookupOutcome.threw 403, dres) ∨
       oracle i = (LookupOutcome.absent, dres)) →
      destructionLoop oracle instanceId (fuel + 1) i =
        (DestructionResult.confirmed (i + 1), [ProviderCall.getInst instanceId])) ∧
    (∀ (oracle : Nat → LookupOutcome × DeleteOutcome) (instanceId : String)
        (fuel i : Nat) (inst : VultrInstance),
      DESTRUCTION_FIRST_POLL_DELAY_MS + DESTRUCTION_POLL_INTERVAL_MS * i ≤
        DESTRUCTION_MAX_WAIT_MS →
      oracle i = (LookupOutcome.found inst, DeleteOutcome.failed 400) →
      (destructionLoop oracle instanceId (fuel + 1) i).1 =
        (destructionLoop oracle instanceId fuel (i + 1)).1) ∧
    (∀ (st : List InstanceRecord) (now : Nat) (instanceId : String) (rc : InstanceRecord),
      instanceState.getInstance st instanceId = some rc →
      (instanceState.updateInstance st now instanceId "destroyed"
          { selfDestructTimer := some none }).2 =
        some { rc with
               status := "destroyed"
               lastUpdated := now
               selfDestructTimer := none }) := by
  refine ⟨⟨rfl, rfl, rfl⟩, by decide, ?_, ?_, ?_⟩
  · intro oracle instanceId fuel i dres hceil hor
    have hlt : ¬ (DESTRUCTION_MAX_WAIT_MS <
        DESTRUCTION_FIRST_POLL_DELAY_MS + DESTRUCTION_POLL_INTERVAL_MS * i) :=
      Nat.not_lt.mpr hceil
    rcases hor with h | h | h <;>
      simp [destructionLoop, hlt, h]
  · intro oracle instanceId fuel i inst hceil h
    have hlt : ¬ (DESTRUCTION_MAX_WAIT_MS <
        DESTRUCTION_FIRST_POLL_DELAY_MS + DESTRUCTION_POLL_INTERVAL_MS * i) :=
      Nat.not_lt.mpr hceil
    simp [destructionLoop, hlt, h]
  · intro st now instanceId rc hfind
    exact (getInstance_updateInstance_found st now instanceId "destroyed"
      { selfDestructTimer := some none } rc hfind).1

/-- Witness for C9: the general 404-confirmation part applied at tick 2 of
the Scenario D oracle. -/
theorem spec_C9_destruction_poller_witness :
    destructionLoop c9Oracle "vm-1" 1 2 =
      (DestructionResult.confirmed 3, [ProviderCall.getInst "vm-1"]) :=
  spec_C9_destruction_poller.2.2.1 c9Oracle "vm-1" 0 2 DeleteOutcome.ok
    (by decide) (Or.inl rfl)

/-- Claim C10: self-protection at the provider-access layer — for the
auto-detected current server, for the configured excluded instance id, and
for any instance created from the configured excluded snapshot, `getInstance`
returns null and `listInstances` omits the instance, so the management flows
built on these wrappers treat the host the bot runs on as nonexistent. -/
theorem spec_C10_self_protection (cfg : SelfProtectConfig) (inst : VultrInstance)
    (hexcl : cfg.currentServerId = some inst.id ∨ cfg.excludeInstanceId = some inst.id ∨
      (∃ snap, cfg.excludeSnapshotId = some snap ∧ inst.snapshot_id = some snap)) :
    getInstanceFiltered cfg inst.id inst = none ∧
    ∀ l : List VultrInstance, inst ∉ listInstancesFiltered cfg l := by
  rcases hexcl with h | h | ⟨snap, hc, hsnap⟩
  · have hcur : isCurrentServer cfg inst.id = true := by simp [isCurrentServer, h]
    refine ⟨by simp [getInstanceFiltered, hcur], ?_⟩
    intro l hin
    cases hsn : cfg.excludeSnapshotId <;>
      simp [listInstancesFiltered, hsn, List.mem_filter, hcur] at hin
  · have hcur : isCurrentServer cfg inst.id = true := by simp [isCurrentServer, h]
    refine ⟨by simp [getInstanceFiltered, hcur], ?_⟩
    intro l hin
    cases hsn : cfg.excludeSnapshotId <;>
      simp [listInstancesFiltered, hsn, List.mem_filter, hcur] at hin
  · constructor
    · by_cases hcur : isCurrentServer cfg inst.id = true
      · simp [getInstanceFiltered, hcur]
      · simp [getInstanceFiltered, hcur, hc, hsnap]
    · intro l hin
      simp [listInstancesFiltered, hc, List.mem_filter, hsnap] at hin

/-- Witness for C10: the host the bot runs on is invisible to both wrappers. -/
theorem spec_C10_self_protection_witness :
    getInstanceFiltered { currentServerId := some "me" } "me"
      { id := "me", status := "active", power_status := "running" } = none ∧
    { id := "me", status := "active", power_status := "running" } ∉
      listInstancesFiltered { currentServerId := some "me" }
        [{ id := "me", status := "active", power_status := "running" }] :=
  ⟨(spec_C10_self_protection { currentServerId := some "me" }
      { id := "me", status := "active", power_status := "running" } (Or.inl rfl)).1,
   (spec_C10_self_protection { currentServerId := some "me" }
      { id := "me", status := "active", power_status := "running" } (Or.inl rfl)).2 _⟩

end DediBot
